import Mathlib

/-!
Verification of the tscrape continuity/bias tracking engine, checkpointed
fetch loop and proxy-rotation policy against its specification.

The definitions below are a shallow embedding of the Python source:
`src/tscrape/bias.py` (BiasTracker, BiasMetrics), `src/tscrape/proxy.py`
(ProxyInfo), `src/tscrape/scraper.py` (_save_batch, _handle_flood_wait) and
`src/tscrape/storage.py` (update_scrape_state).  SQLite tables are modelled
as in-memory lists of rows; wall-clock timestamps as a logical `clock`
counter incremented once per tracker call (each real call observes a fresh,
strictly later `datetime.now()`); the SHA-256 checksum as an abstract
function parameter `hash : String → String`.
-/

namespace TScrape

/-- Status of a message in continuity tracking (`MessageStatus` in bias.py). -/
inductive MessageStatus where
  | observed
  | deleted
  | inaccessible
  | unknown
  | edited
deriving DecidableEq

/-- A row of the `message_continuity` table: key `(channel_id, expected_msg_id)`,
observed flag, first/last timestamps and a status (bias.py `MessageContinuity`). -/
structure ContinuityRecord where
  channel_id : Int
  expected_msg_id : Int
  observed : Bool
  first_seen_ts : Option Nat
  last_checked_ts : Option Nat
  status : MessageStatus
deriving DecidableEq

/-- A row of the append-only `message_status_history` table
(bias.py `MessageStatusHistory`). -/
structure HistoryRow where
  channel_id : Int
  message_id : Int
  observed_ts : Nat
  status : MessageStatus
  text_checksum : Option String
  text_length : Option Nat
deriving DecidableEq

/-- State of a `BiasTracker`: the two SQLite tables plus the in-memory
`_observed_ids` set, and the logical clock supplying `datetime.now()`. -/
structure TrackerState where
  continuity : List ContinuityRecord
  history : List HistoryRow
  observedIds : List (Int × Int)
  clock : Nat
deriving DecidableEq

/-- Key match for a `message_continuity` row. -/
def contKey (cid mid : Int) (r : ContinuityRecord) : Bool :=
  r.channel_id == cid && r.expected_msg_id == mid

/-- `SELECT * FROM message_continuity WHERE channel_id = ? AND expected_msg_id = ?`
(the table's primary key makes the row unique). -/
def findCont (rows : List ContinuityRecord) (cid mid : Int) : Option ContinuityRecord :=
  rows.find? (contKey cid mid)

/-- The `INSERT ... ON CONFLICT DO UPDATE` of `BiasTracker.record_gap`:
a fresh row gets `observed = 0, first_seen_ts = now, status = excluded.status`;
a conflicting row keeps `observed` and `first_seen_ts`, refreshes
`last_checked_ts`, and its status becomes `deleted` when it was `observed`,
else the caller-supplied status. -/
def upsertGap (rows : List ContinuityRecord) (cid mid : Int) (now : Nat)
    (st : MessageStatus) : List ContinuityRecord :=
  match rows with
  | [] => [⟨cid, mid, false, some now, some now, st⟩]
  | r :: rest =>
    if contKey cid mid r then
      { r with last_checked_ts := some now,
               status := if r.status = .observed then .deleted else st } :: rest
    else
      r :: upsertGap rest cid mid now st

/-- `BiasTracker.record_gap(channel_id, missing_msg_id, status)`. -/
def recordGap (s : TrackerState) (channel_id missing_msg_id : Int)
    (status : MessageStatus) : TrackerState :=
  { s with continuity := upsertGap s.continuity channel_id missing_msg_id s.clock status,
           clock := s.clock + 1 }

/-- `BiasMetrics` (bias.py): dataset-level bias metrics for one channel.
Counts are Python ints; timestamps are logical ticks. -/
structure BiasMetrics where
  channel_id : Int
  channel_name : String
  expected_message_count : Int
  observed_message_count : Int
  gap_count : Int
  confirmed_deleted : Int
  possibly_deleted : Int
  edited_messages : Int
  oldest_message_ts : Option Nat
  newest_message_ts : Option Nat
  collection_start_ts : Option Nat
  collection_end_ts : Option Nat
  avg_sampling_latency_seconds : Option ℚ
deriving DecidableEq

/-- `BiasMetrics.gap_ratio`: missing IDs / expected IDs, `0.0` on zero denominator. -/
def BiasMetrics.gap_ratio (m : BiasMetrics) : ℚ :=
  if m.expected_message_count = 0 then 0
  else (m.gap_count : ℚ) / (m.expected_message_count : ℚ)

/-- `BiasMetrics.deletion_rate`: deleted / observed, `0.0` on zero denominator. -/
def BiasMetrics.deletion_rate (m : BiasMetrics) : ℚ :=
  if m.observed_message_count = 0 then 0
  else (m.confirmed_deleted : ℚ) / (m.observed_message_count : ℚ)

/-- `BiasMetrics.coverage_rate`: observed / expected, `0.0` on zero denominator. -/
def BiasMetrics.coverage_rate (m : BiasMetrics) : ℚ :=
  if m.expected_message_count = 0 then 0
  else (m.observed_message_count : ℚ) / (m.expected_message_count : ℚ)

/-- `BiasMetrics.edit_rate`: edited / observed, `0.0` on zero denominator. -/
def BiasMetrics.edit_rate (m : BiasMetrics) : ℚ :=
  if m.observed_message_count = 0 then 0
  else (m.edited_messages : ℚ) / (m.observed_message_count : ℚ)

/-- A concrete tracker state used to instantiate proved theorems:
one continuity row `(1, 2)` with status `observed`. -/
def sampleObservedState : TrackerState :=
  { continuity := [⟨1, 2, true, some 0, some 0, .observed⟩],
    history := [], observedIds := [(1, 2)], clock := 5 }

/-- An empty tracker state. -/
def emptyState : TrackerState :=
  { continuity := [], history := [], observedIds := [], clock := 0 }

/-- Looking a key up after `upsertGap` yields the updated row when the key
was present, and the freshly inserted row otherwise. -/
theorem findCont_upsertGap (rows : List ContinuityRecord) (cid mid : Int)
    (now : Nat) (st : MessageStatus) :
    findCont (upsertGap rows cid mid now st) cid mid =
      some (match findCont rows cid mid with
            | some r => { r with last_checked_ts := some now,
                                 status := if r.status = .observed then .deleted else st }
            | none => ⟨cid, mid, false, some now, some now, st⟩) := by
  induction rows with
  | nil =>
    simp [findCont, upsertGap, List.find?, contKey]
  | cons r rest ih =>
    by_cases h : contKey cid mid r = true
    · have hk : contKey cid mid { r with last_checked_ts := some now, status := (if r.status = .observed then .deleted else st) } = true := h
      simp only [findCont, upsertGap]
      rw [if_pos h, List.find?_cons_of_pos _ hk, List.find?_cons_of_pos _ h]
    · simp only [findCont, upsertGap]
      rw [if_neg h, List.find?_cons_of_neg _ h, List.find?_cons_of_neg _ h]
      exact ih

/-- Keys distinct from the upserted one are untouched by `upsertGap`. -/
theorem findCont_upsertGap_other (rows : List ContinuityRecord) (cid mid cid' mid' : Int)
    (now : Nat) (st : MessageStatus) (hne : ¬(cid' = cid ∧ mid' = mid)) :
    findCont (upsertGap rows cid mid now st) cid' mid' = findCont rows cid' mid' := by
  have hnew : ¬ contKey cid' mid' ⟨cid, mid, false, some now, some now, st⟩ = true := by
    simp only [contKey, Bool.and_eq_true, beq_iff_eq]
    intro hk
    exact hne ⟨hk.1.symm, hk.2.symm⟩
  induction rows with
  | nil =>
    simp only [upsertGap, findCont]
    rw [List.find?_cons_of_neg _ hnew]
  | cons r rest ih =>
    by_cases h : contKey cid mid r = true
    · by_cases h2 : contKey cid' mid' r = true
      · exfalso
        have e1 : r.channel_id = cid ∧ r.expected_msg_id = mid := by
          simpa [contKey] using h
        have e2 : r.channel_id = cid' ∧ r.expected_msg_id = mid' := by
          simpa [contKey] using h2
        exact hne ⟨e2.1.symm.trans e1.1, e2.2.symm.trans e1.2⟩
      · have h2' : ¬ contKey cid' mid' ({ r with last_checked_ts := some now, status := (if r.status = .observed then .deleted else st) }) = true := h2
        simp only [upsertGap, findCont]
        rw [if_pos h, List.find?_cons_of_neg _ h2', List.find?_cons_of_neg _ h2]
    · simp only [upsertGap, findCont]
      rw [if_neg h]
      by_cases h2 : contKey cid' mid' r = true
      · rw [List.find?_cons_of_pos _ h2, List.find?_cons_of_pos _ h2]
      · rw [List.find?_cons_of_neg _ h2, List.find?_cons_of_neg _ h2]
        exact ih

/-- C1: once a continuity record for `(channel_id, message_id)` has status
`observed`, any later `record_gap` on that key sets its status to `deleted`
(never `unknown`), whatever status argument `record_gap` is passed. -/
theorem record_gap_observed_becomes_deleted (s : TrackerState) (cid mid : Int)
    (st : MessageStatus) (r : ContinuityRecord)
    (hfind : findCont s.continuity cid mid = some r)
    (hobs : r.status = .observed) :
    (findCont (recordGap s cid mid st).continuity cid mid).map (fun q => q.status) =
      some .deleted := by
  simp only [recordGap]
  rw [findCont_upsertGap, hfind]
  simp [hobs]

/-- Witness for C1 at a concrete state: the `(1, 2)` record of
`sampleObservedState` is `observed`, and `record_gap` with status argument
`unknown` leaves it `deleted`. -/
theorem record_gap_observed_becomes_deleted_witness :
    (findCont (recordGap sampleObservedState 1 2 .unknown).continuity 1 2).map
        (fun q => q.status) = some .deleted :=
  record_gap_observed_becomes_deleted sampleObservedState 1 2 .unknown
    ⟨1, 2, true, some 0, some 0, .observed⟩ (by decide) (by decide)

/-- C10: `record_gap` on an existing record refreshes `last_checked_ts` and
rewrites `status` (to `deleted` from `observed`, else to the given status) but
leaves `observed`, `first_seen_ts` and the key unchanged; on an absent key it
inserts a record with `observed = false` and both timestamps set to now. -/
theorem record_gap_frame (s : TrackerState) (cid mid : Int) (st : MessageStatus) :
    (∀ r, findCont s.continuity cid mid = some r →
      findCont (recordGap s cid mid st).continuity cid mid =
        some { r with last_checked_ts := some s.clock,
                      status := if r.status = .observed then .deleted else st }) ∧
    (findCont s.continuity cid mid = none →
      findCont (recordGap s cid mid st).continuity cid mid =
        some ⟨cid, mid, false, some s.clock, some s.clock, st⟩) := by
  constructor
  · intro r hr
    simp only [recordGap]
    rw [findCont_upsertGap, hr]
  · intro hnone
    simp only [recordGap]
    rw [findCont_upsertGap, hnone]

/-- Witness for C10: on `sampleObservedState` the existing `(1, 2)` record keeps
`observed = true` and `first_seen_ts = 0`; on the empty state a fresh record
with `observed = false` is created. -/
theorem record_gap_frame_witness :
    findCont (recordGap sampleObservedState 1 2 .unknown).continuity 1 2 =
      some ⟨1, 2, true, some 0, some 5, .deleted⟩ ∧
    findCont (recordGap emptyState 3 4 .unknown).continuity 3 4 =
      some ⟨3, 4, false, some 0, some 0, .unknown⟩ :=
  ⟨(record_gap_frame sampleObservedState 1 2 .unknown).1
      ⟨1, 2, true, some 0, some 0, .observed⟩ (by decide),
   (record_gap_frame emptyState 3 4 .unknown).2 (by decide)⟩

/-- C2: every `BiasMetrics` ratio is total and returns exactly `0` on a zero
denominator: `expected_message_count = 0` forces `gap_ratio = 0` and
`coverage_rate = 0`; `observed_message_count = 0` forces `deletion_rate = 0`
and `edit_rate = 0`. -/
theorem bias_metrics_zero_denominator (m : BiasMetrics) :
    (m.expected_message_count = 0 → m.gap_ratio = 0 ∧ m.coverage_rate = 0) ∧
    (m.observed_message_count = 0 → m.deletion_rate = 0 ∧ m.edit_rate = 0) := by
  refine ⟨fun h => ⟨?_, ?_⟩, fun h => ⟨?_, ?_⟩⟩ <;>
    simp [BiasMetrics.gap_ratio, BiasMetrics.coverage_rate,
          BiasMetrics.deletion_rate, BiasMetrics.edit_rate, h]

/-- A `BiasMetrics` value with empty channel: zero counts everywhere. -/
def zeroMetrics : BiasMetrics :=
  { channel_id := 7, channel_name := "empty", expected_message_count := 0,
    observed_message_count := 0, gap_count := 0, confirmed_deleted := 0,
    possibly_deleted := 0, edited_messages := 0, oldest_message_ts := none,
    newest_message_ts := none, collection_start_ts := none,
    collection_end_ts := none, avg_sampling_latency_seconds := none }

/-- Witness for C2: the all-zero metrics value has all four ratios equal to 0. -/
theorem bias_metrics_zero_denominator_witness :
    (zeroMetrics.gap_ratio = 0 ∧ zeroMetrics.coverage_rate = 0) ∧
    (zeroMetrics.deletion_rate = 0 ∧ zeroMetrics.edit_rate = 0) :=
  ⟨(bias_metrics_zero_denominator zeroMetrics).1 rfl,
   (bias_metrics_zero_denominator zeroMetrics).2 rfl⟩

/-- Python truthiness of the optional `text` argument: `if text:` — the
checksum (`sha256(text)[:16]`, abstracted into `hash`) exists only for a
non-`None`, non-empty text. -/
def checksumOf (hash : String → String) (text : Option String) : Option String :=
  match text with
  | some t => if t = "" then none else some (hash t)
  | none => none

/-- `text_length = len(text)` under the same truthiness rule. -/
def textLenOf (text : Option String) : Option Nat :=
  match text with
  | some t => if t = "" then none else some t.length
  | none => none

/-- Key-and-status match used by the edit-detection query
(`WHERE channel_id = ? AND message_id = ? AND status = 'observed'`). -/
def obsKey (cid mid : Int) (e : HistoryRow) : Bool :=
  e.channel_id == cid && e.message_id == mid && e.status == MessageStatus.observed

/-- Match for an `edited` history row of one key. -/
def editKey (cid mid : Int) (e : HistoryRow) : Bool :=
  e.channel_id == cid && e.message_id == mid && e.status == MessageStatus.edited

/-- `SELECT text_checksum ... ORDER BY observed_ts DESC LIMIT 1` over the
append-only history (rows are appended with strictly increasing timestamps,
so the most recent row is the last matching one). -/
def latestObserved (h : List HistoryRow) (cid mid : Int) : Option HistoryRow :=
  h.reverse.find? (obsKey cid mid)

/-- The branch condition of `record_message`'s edit check:
`row and row[0] and row[0] != checksum`. -/
def isEdit (history : List HistoryRow) (cid mid : Int) (c : String) : Bool :=
  match latestObserved history cid mid with
  | some e =>
    match e.text_checksum with
    | some c0 => c0 != c
    | none => false
  | none => false

/-- The `INSERT ... ON CONFLICT DO UPDATE` of `record_message` on the
continuity table: set `observed = 1`, refresh `last_checked_ts`, set status
`observed` (a fresh row also gets `first_seen_ts = now`). -/
def upsertObserved (rows : List ContinuityRecord) (cid mid : Int) (now : Nat) :
    List ContinuityRecord :=
  match rows with
  | [] => [⟨cid, mid, true, some now, some now, .observed⟩]
  | r :: rest =>
    if contKey cid mid r then
      { r with observed := true, last_checked_ts := some now, status := .observed } :: rest
    else
      r :: upsertObserved rest cid mid now

/-- `UPDATE message_continuity SET status = 'edited' WHERE channel_id = ? AND
expected_msg_id = ?`. -/
def setStatusEdited (rows : List ContinuityRecord) (cid mid : Int) :
    List ContinuityRecord :=
  rows.map (fun r => if contKey cid mid r then { r with status := .edited } else r)

/-- The in-memory `_observed_ids[channel_id].add(message_id)`. -/
def addObserved (ids : List (Int × Int)) (cid mid : Int) : List (Int × Int) :=
  if (cid, mid) ∈ ids then ids else ids ++ [(cid, mid)]

/-- `BiasTracker.record_message(channel_id, message_id, text, check_edit)`:
upsert the continuity row to `observed`; when the edit check is enabled and a
checksum exists, compare it with the most recent `observed` history entry and
append one `edited` (flipping the continuity status) or one `observed` history
row; otherwise append nothing. -/
def recordMessage (hash : String → String) (s : TrackerState)
    (channel_id message_id : Int) (text : Option String) (check_edit : Bool) :
    TrackerState :=
  let now := s.clock
  let obs := addObserved s.observedIds channel_id message_id
  let cont := upsertObserved s.continuity channel_id message_id now
  match checksumOf hash text, check_edit with
  | some c, true =>
    if isEdit s.history channel_id message_id c then
      { continuity := setStatusEdited cont channel_id message_id,
        history := s.history ++ [⟨channel_id, message_id, now, .edited, some c, textLenOf text⟩],
        observedIds := obs, clock := now + 1 }
    else
      { continuity := cont,
        history := s.history ++ [⟨channel_id, message_id, now, .observed, some c, textLenOf text⟩],
        observedIds := obs, clock := now + 1 }
  | _, _ =>
    { continuity := cont, history := s.history, observedIds := obs, clock := now + 1 }

/-- Number of `edited` status transitions recorded for a key: the `edited`
rows of the append-only history. -/
def editedCount (s : TrackerState) (cid mid : Int) : Nat :=
  (s.history.filter (editKey cid mid)).length

/-- Looking a key up after `upsertObserved` yields the updated row when the
key was present, and the freshly inserted row otherwise. -/
theorem findCont_upsertObserved (rows : List ContinuityRecord) (cid mid : Int)
    (now : Nat) :
    findCont (upsertObserved rows cid mid now) cid mid =
      some (match findCont rows cid mid with
            | some r => { r with observed := true, last_checked_ts := some now,
                                 status := .observed }
            | none => ⟨cid, mid, true, some now, some now, .observed⟩) := by
  induction rows with
  | nil =>
    simp [findCont, upsertObserved, List.find?, contKey]
  | cons r rest ih =>
    by_cases h : contKey cid mid r = true
    · have hk : contKey cid mid { r with observed := true, last_checked_ts := some now, status := MessageStatus.observed } = true := h
      simp only [findCont, upsertObserved]
      rw [if_pos h, List.find?_cons_of_pos _ hk, List.find?_cons_of_pos _ h]
    · simp only [findCont, upsertObserved]
      rw [if_neg h, List.find?_cons_of_neg _ h, List.find?_cons_of_neg _ h]
      exact ih

/-- After `upsertObserved` the status of the key's row is `observed`. -/
theorem findCont_upsertObserved_status (rows : List ContinuityRecord)
    (cid mid : Int) (now : Nat) :
    (findCont (upsertObserved rows cid mid now) cid mid).map (fun q => q.status) =
      some MessageStatus.observed := by
  rw [findCont_upsertObserved]
  cases findCont rows cid mid <;> simp

/-- `setStatusEdited` rewrites exactly the status of the key's row. -/
theorem findCont_setStatusEdited (rows : List ContinuityRecord) (cid mid : Int) :
    findCont (setStatusEdited rows cid mid) cid mid =
      (findCont rows cid mid).map (fun r => { r with status := .edited }) := by
  induction rows with
  | nil => simp [findCont, setStatusEdited]
  | cons r rest ih =>
    by_cases h : contKey cid mid r = true
    · have hk : contKey cid mid { r with status := MessageStatus.edited } = true := h
      simp only [findCont, setStatusEdited, List.map_cons]
      rw [if_pos h, List.find?_cons_of_pos _ hk, List.find?_cons_of_pos _ h]
      simp
    · simp only [findCont, setStatusEdited, List.map_cons]
      rw [if_neg h, List.find?_cons_of_neg _ h, List.find?_cons_of_neg _ h]
      exact ih

/-- Appending a matching `observed` row makes it the most recent one. -/
theorem latestObserved_append_obs (h : List HistoryRow) (row : HistoryRow)
    (cid mid : Int) (hk : obsKey cid mid row = true) :
    latestObserved (h ++ [row]) cid mid = some row := by
  simp only [latestObserved, List.reverse_append]
  rw [show ([row] : List HistoryRow).reverse = [row] from rfl]
  rw [show ([row] ++ h.reverse : List HistoryRow) = row :: h.reverse from rfl]
  exact List.find?_cons_of_pos _ hk

/-- Evaluating `record_message` when the edit test is false: the call appends
exactly one `observed` history row. -/
theorem recordMessage_not_edit (hash : String → String) (s : TrackerState)
    (cid mid : Int) (t : String) (ht : t ≠ "")
    (hni : isEdit s.history cid mid (hash t) = false) :
    recordMessage hash s cid mid (some t) true =
      { continuity := upsertObserved s.continuity cid mid s.clock,
        history := s.history ++ [⟨cid, mid, s.clock, .observed, some (hash t), some t.length⟩],
        observedIds := addObserved s.observedIds cid mid,
        clock := s.clock + 1 } := by
  simp [recordMessage, checksumOf, textLenOf, ht, hni]

/-- Evaluating `record_message` when the edit test is true: the call appends
exactly one `edited` history row and flips the continuity status. -/
theorem recordMessage_edit (hash : String → String) (s : TrackerState)
    (cid mid : Int) (t : String) (ht : t ≠ "")
    (hi : isEdit s.history cid mid (hash t) = true) :
    recordMessage hash s cid mid (some t) true =
      { continuity := setStatusEdited (upsertObserved s.continuity cid mid s.clock) cid mid,
        history := s.history ++ [⟨cid, mid, s.clock, .edited, some (hash t), some t.length⟩],
        observedIds := addObserved s.observedIds cid mid,
        clock := s.clock + 1 } := by
  simp [recordMessage, checksumOf, textLenOf, ht, hi]

/-- The identity function standing in for the (injective on our inputs)
truncated SHA-256 checksum in concrete instantiations. -/
def idHash : String → String := fun t => t

/-- A tracker state whose history already holds an `observed` entry for key
`(1, 2)` with checksum `"a"`. -/
def mismatchState : TrackerState :=
  { continuity := [], history := [⟨1, 2, 0, .observed, some ("a"), some 1⟩],
    observedIds := [], clock := 3 }

/-- C4 (counterexample): from a prior state whose most recent `observed`
history entry for the key carries a different checksum, calling
`record_message` twice with the SAME non-empty text `"b"` records an `edited`
transition BOTH times (the comparison point stays the old `observed` entry),
so the claim's "no new edited status transition for every prior tracker
state" is false: the second call adds a second `edited` entry. -/
theorem record_message_same_text_cex :
    editedCount mismatchState 1 2 = 0 ∧
    editedCount (recordMessage idHash mismatchState 1 2 (some ("b")) true) 1 2 = 1 ∧
    editedCount (recordMessage idHash
        (recordMessage idHash mismatchState 1 2 (some ("b")) true) 1 2 (some ("b")) true) 1 2 = 2 := by
  decide

/-- C4 (amended): for every prior state, (1) when the code's edit test is
false for the text's checksum — the most recent `observed` history entry for
the key is absent, has no checksum, or matches — two successive
`record_message` calls with the same non-empty text append no `edited`
transition and leave the continuity status `observed`; (2) whenever the
checksum differs from the most recent `observed` entry's (the edit test is
true), a single call appends exactly one `edited` history row and flips the
continuity record's status to `edited`. -/
theorem record_message_edit_detection (hash : String → String) (s : TrackerState)
    (cid mid : Int) (t : String) (ht : t ≠ "") :
    (isEdit s.history cid mid (hash t) = false →
      editedCount (recordMessage hash
          (recordMessage hash s cid mid (some t) true) cid mid (some t) true) cid mid =
        editedCount s cid mid ∧
      (findCont (recordMessage hash
          (recordMessage hash s cid mid (some t) true) cid mid (some t) true).continuity
          cid mid).map (fun q => q.status) = some MessageStatus.observed) ∧
    (isEdit s.history cid mid (hash t) = true →
      (recordMessage hash s cid mid (some t) true).history =
        s.history ++ [⟨cid, mid, s.clock, .edited, some (hash t), some t.length⟩] ∧
      (findCont (recordMessage hash s cid mid (some t) true).continuity cid mid).map
          (fun q => q.status) = some MessageStatus.edited ∧
      editedCount (recordMessage hash s cid mid (some t) true) cid mid =
        editedCount s cid mid + 1) := by
  constructor
  · intro hni
    have h1 := recordMessage_not_edit hash s cid mid t ht hni
    have hlat : latestObserved (s.history ++ [⟨cid, mid, s.clock, .observed, some (hash t), some t.length⟩]) cid mid = some ⟨cid, mid, s.clock, .observed, some (hash t), some t.length⟩ :=
      latestObserved_append_obs _ _ _ _ (by simp [obsKey])
    have hni2 : isEdit (s.history ++ [⟨cid, mid, s.clock, .observed, some (hash t), some t.length⟩]) cid mid (hash t) = false := by
      simp only [isEdit, hlat]
      simp
    have h2 := recordMessage_not_edit hash (recordMessage hash s cid mid (some t) true)
      cid mid t ht (by rw [h1]; exact hni2)
    constructor
    · rw [h2, h1]
      simp [editedCount, List.filter_append, editKey]
    · rw [h2]
      exact findCont_upsertObserved_status _ _ _ _
  · intro hi
    have h1 := recordMessage_edit hash s cid mid t ht hi
    refine ⟨by rw [h1], ?_, ?_⟩
    · rw [h1]
      show (findCont (setStatusEdited (upsertObserved s.continuity cid mid s.clock) cid mid) cid mid).map (fun q => q.status) = some MessageStatus.edited
      rw [findCont_setStatusEdited, findCont_upsertObserved]
      cases findCont s.continuity cid mid <;> simp
    · rw [h1]
      simp [editedCount, List.filter_append, editKey]

/-- Witness for the amended C4, instantiating both branches: on the empty
state two calls with text `"b"` record no edit; on `mismatchState` (latest
observed checksum `"a"`) one call with text `"b"` appends exactly one
`edited` entry and flips the continuity status. -/
theorem record_message_edit_detection_witness :
    (editedCount (recordMessage idHash
        (recordMessage idHash emptyState 1 2 (some ("b")) true) 1 2 (some ("b")) true) 1 2 =
      editedCount emptyState 1 2) ∧
    ((recordMessage idHash mismatchState 1 2 (some ("b")) true).history =
      mismatchState.history ++ [⟨1, 2, 3, .edited, some ("b"), some 1⟩] ∧
     editedCount (recordMessage idHash mismatchState 1 2 (some ("b")) true) 1 2 =
      editedCount mismatchState 1 2 + 1) :=
  ⟨((record_message_edit_detection idHash emptyState 1 2 "b" (by decide)).1
      (by decide)).1,
   ⟨((record_message_edit_detection idHash mismatchState 1 2 "b" (by decide)).2
      (by decide)).1,
    ((record_message_edit_detection idHash mismatchState 1 2 "b" (by decide)).2
      (by decide)).2.2⟩⟩

/-- Continuity rows of one channel (`WHERE channel_id = ?`). -/
def channelRows (rows : List ContinuityRecord) (cid : Int) : List ContinuityRecord :=
  rows.filter (fun r => r.channel_id == cid)

/-- `SELECT status, COUNT(*) ... GROUP BY status`, read off for one status. -/
def countStatus (rows : List ContinuityRecord) (st : MessageStatus) : Int :=
  ((rows.filter (fun r => r.status == st)).length : Int)

/-- `BiasTracker.compute_metrics(channel_id, channel_name)`: aggregate the
continuity rows by status (`edited` also counts as observed), derive the
expected count from the recorded ID range (`max - min + 1`, only when both
bounds are non-NULL and nonzero — Python truthiness of `row['min_id']`),
`gap_count = expected - observed`, and the collection span from the earliest
and latest `observed` history timestamps. -/
def computeMetrics (s : TrackerState) (channel_id : Int) (channel_name : String) :
    BiasMetrics :=
  let rows := channelRows s.continuity channel_id
  let nDel := countStatus rows .deleted
  let nEdit := countStatus rows .edited
  let nPoss := countStatus rows .unknown + countStatus rows .inaccessible
  let observed := countStatus rows .observed + nEdit
  let ids := rows.map (fun r => r.expected_msg_id)
  let bounds : Int × Int :=
    match ids.min?, ids.max? with
    | some mn, some mx =>
      if mn ≠ 0 ∧ mx ≠ 0 then (mx - mn + 1, mx - mn + 1 - observed) else (0, 0)
    | _, _ => (0, 0)
  let obsTs := (s.history.filter
    (fun e => e.channel_id == channel_id && e.status == MessageStatus.observed)).map
    (fun e => e.observed_ts)
  { channel_id := channel_id, channel_name := channel_name,
    expected_message_count := bounds.1, observed_message_count := observed,
    gap_count := bounds.2, confirmed_deleted := nDel, possibly_deleted := nPoss,
    edited_messages := nEdit,
    oldest_message_ts := none, newest_message_ts := none,
    collection_start_ts := obsTs.min?, collection_end_ts := obsTs.max?,
    avg_sampling_latency_seconds := none }

/-- `range(min_msg_id, max_msg_id + 1)` over Python ints. -/
def idRange (mn mx : Int) : List Int :=
  (List.range (mx + 1 - mn).toNat).map (fun i => mn + (i : Int))

/-- `BiasTracker.detect_gaps(channel_id, min_msg_id, max_msg_id)`: the gap set
is the expected range minus the in-memory observed set; each gap is recorded
via `record_gap` with the default status `unknown` (the per-gap order of the
`record_gap` calls does not affect the final state since the keys are
distinct); the sorted gap list is returned. -/
def detectGaps (s : TrackerState) (channel_id mn mx : Int) :
    TrackerState × List Int :=
  let gaps := (idRange mn mx).filter
    (fun i => decide ((channel_id, i) ∉ s.observedIds))
  (gaps.foldl (fun st g => recordGap st channel_id g .unknown) s, gaps)

/-- The C5 scenario's tracker state after observing the eight messages
`{100,101,102,104,105,107,108,109}` of channel 1. -/
def scenarioBase : TrackerState :=
  ([100, 101, 102, 104, 105, 107, 108, 109] : List Int).foldl
    (fun st i => recordMessage idHash st 1 i none true) emptyState

/-- The C5 scenario's state after gap detection over the range `[100, 109]`. -/
def scenarioState : TrackerState := (detectGaps scenarioBase 1 100 109).1

/-- C5: with messages `{100,101,102,104,105,107,108,109}` observed and the
range `[100, 109]` reconciled, the detected gaps are `{103, 106}` and
`compute_metrics` reports `expected = 10`, `observed = 8`, `gap_count = 2`,
`gap_ratio = 0.2` and `coverage_rate = 0.8`. -/
theorem compute_metrics_scenario :
    (detectGaps scenarioBase 1 100 109).2 = [103, 106] ∧
    (computeMetrics scenarioState 1 "c").expected_message_count = 10 ∧
    (computeMetrics scenarioState 1 "c").observed_message_count = 8 ∧
    (computeMetrics scenarioState 1 "c").gap_count = 2 ∧
    (computeMetrics scenarioState 1 "c").gap_ratio = 0.2 ∧
    (computeMetrics scenarioState 1 "c").coverage_rate = 0.8 := by
  have he : (computeMetrics scenarioState 1 "c").expected_message_count = 10 := by decide
  have ho : (computeMetrics scenarioState 1 "c").observed_message_count = 8 := by decide
  have hg : (computeMetrics scenarioState 1 "c").gap_count = 2 := by decide
  refine ⟨by decide, he, ho, hg, ?_, ?_⟩
  · unfold BiasMetrics.gap_ratio
    rw [he, hg]
    norm_num
  · unfold BiasMetrics.coverage_rate
    rw [he, ho]
    norm_num

/-- `ProxyInfo` (proxy.py): one proxy endpoint with health counters.
Latency/score metadata are rationals; timestamps are logical ticks. -/
structure ProxyInfo where
  host : String
  port : Int
  successes : Nat
  failures : Nat
  latency_ms : Option ℚ
  score : Option ℚ
  last_used : Option Nat
  last_success : Option Nat
  last_failure : Option Nat
  is_dead : Bool
deriving DecidableEq

/-- `ProxyInfo.success_rate`: `successes / (successes + failures)`, assumed
perfect (`1.0`) while untried. -/
def ProxyInfo.success_rate (p : ProxyInfo) : ℚ :=
  if p.successes + p.failures = 0 then 1
  else (p.successes : ℚ) / ((p.successes + p.failures : Nat) : ℚ)

/-- `ProxyInfo.mark_success`: bump the counter, stamp the times, revive. -/
def ProxyInfo.mark_success (p : ProxyInfo) (now : Nat) : ProxyInfo :=
  { p with successes := p.successes + 1, last_used := some now,
           last_success := some now, is_dead := false }

/-- `ProxyInfo.mark_failure`: bump the counter, stamp the times, and mark
dead only when `failures >= 3` AND `success_rate < 0.2`. -/
def ProxyInfo.mark_failure (p : ProxyInfo) (now : Nat) : ProxyInfo :=
  let q := { p with failures := p.failures + 1, last_used := some now,
                    last_failure := some now }
  { q with is_dead := if 3 ≤ q.failures ∧ q.success_rate < 1/5 then true else q.is_dead }

/-- C7: a failure report sets the dead flag exactly when, after the bump,
total failures reach 3 AND the success rate is below 0.2 — both conditions
are required. -/
theorem mark_failure_dead_iff (p : ProxyInfo) (now : Nat)
    (h : p.is_dead = false) :
    (ProxyInfo.mark_failure p now).is_dead = true ↔
      (3 ≤ (ProxyInfo.mark_failure p now).failures ∧
        (ProxyInfo.mark_failure p now).success_rate < 1/5) := by
  have hdead : (ProxyInfo.mark_failure p now).is_dead = (if 3 ≤ p.failures + 1 ∧ ProxyInfo.success_rate { p with failures := p.failures + 1, last_used := some now, last_failure := some now, is_dead := false } < 1/5 then true else p.is_dead) := rfl
  have hfail : (ProxyInfo.mark_failure p now).failures = p.failures + 1 := rfl
  have hrate : (ProxyInfo.mark_failure p now).success_rate = ProxyInfo.success_rate { p with failures := p.failures + 1, last_used := some now, last_failure := some now, is_dead := false } := rfl
  rw [hdead, hfail, hrate, h]
  by_cases hc : 3 ≤ p.failures + 1 ∧ ProxyInfo.success_rate { p with failures := p.failures + 1, last_used := some now, last_failure := some now, is_dead := false } < 1/5
  · rw [if_pos hc]
    exact iff_of_true rfl hc
  · rw [if_neg hc]
    exact iff_of_false (by simp) hc

/-- The claim's example endpoint: 2 successes, 2 failures, alive. -/
def partialProxy : ProxyInfo :=
  { host := "h", port := 1, successes := 2, failures := 2, latency_ms := none,
    score := none, last_used := none, last_success := none, last_failure := none,
    is_dead := false }

/-- Witness for C7: after a third failure the example endpoint has
`success_rate = 0.4`, so `0.4 < 0.2` fails and it is NOT marked dead. -/
theorem mark_failure_dead_iff_witness :
    (ProxyInfo.mark_failure partialProxy 9).is_dead = false := by
  have h := mark_failure_dead_iff partialProxy 9 rfl
  rw [← Bool.not_eq_true]
  intro hd
  have hc := (h.mp hd).2
  have hval : (ProxyInfo.mark_failure partialProxy 9).success_rate = 2/5 := by
    norm_num [ProxyInfo.mark_failure, ProxyInfo.success_rate, partialProxy]
  rw [hval] at hc
  norm_num at hc

/-- C9: an endpoint with zero recorded successes and failures has
`success_rate = 1.0` exactly, the maximum possible health: every endpoint's
success rate is at most that of an untried one, so fresh endpoints get the
top health score in weighted selection (`score = success_rate * 100` in
`ProxyManager.get_proxy`). -/
theorem fresh_proxy_max_rate (p : ProxyInfo) (h1 : p.successes = 0)
    (h2 : p.failures = 0) :
    p.success_rate = 1 ∧ ∀ q : ProxyInfo, q.success_rate ≤ p.success_rate := by
  have hp : p.success_rate = 1 := by
    simp [ProxyInfo.success_rate, h1, h2]
  refine ⟨hp, fun q => ?_⟩
  rw [hp]
  unfold ProxyInfo.success_rate
  split
  · exact le_refl 1
  · rename_i hq
    have hpos : (0 : ℚ) < ((q.successes + q.failures : Nat) : ℚ) := by
      exact_mod_cast Nat.pos_of_ne_zero hq
    rw [div_le_one hpos]
    exact_mod_cast Nat.le_add_right q.successes q.failures

/-- An untried endpoint. -/
def freshProxy : ProxyInfo :=
  { host := "f", port := 2, successes := 0, failures := 0, latency_ms := none,
    score := none, last_used := none, last_success := none, last_failure := none,
    is_dead := false }

/-- Witness for C9: the fresh endpoint's rate is 1 and dominates the
partially failed endpoint's rate. -/
theorem fresh_proxy_max_rate_witness :
    freshProxy.success_rate = 1 ∧
      partialProxy.success_rate ≤ freshProxy.success_rate :=
  ⟨(fresh_proxy_max_rate freshProxy rfl rfl).1,
   (fresh_proxy_max_rate freshProxy rfl rfl).2 partialProxy⟩

/-- The fields of a scraped message the batch flush depends on
(models.py `ScrapedMessage`, abridged to the flush-relevant part). -/
structure ScrapedMessage where
  message_id : Int
  channel_id : Int
  text : String
deriving DecidableEq

/-- One call across the persistence boundary, in program order
(storage.py `save_messages` / `update_scrape_state`). -/
inductive StorageEvent where
  | saveMessages (channel_id : Int) (batch : List ScrapedMessage)
  | updateState (channel_id : Int) (last_message_id : Option Int)
      (messages_scraped : Option Int)
deriving DecidableEq

/-- The checkpoint columns of the `scrape_state` row touched by
`update_scrape_state`. -/
structure ScrapeState where
  last_message_id : Option Int
  messages_scraped : Option Int
deriving DecidableEq

/-- Storage-side state: batches persisted so far plus the checkpoint row. -/
structure StorageState where
  saved : List (Int × List ScrapedMessage)
  scrape : ScrapeState
deriving DecidableEq

/-- Effect of one persistence call: `save_messages` appends the batch;
`update_scrape_state` overwrites exactly the columns whose argument is not
`None`. -/
def applyEvent (st : StorageState) (ev : StorageEvent) : StorageState :=
  match ev with
  | .saveMessages cid batch => { st with saved := st.saved ++ [(cid, batch)] }
  | .updateState _ lastId scraped =>
    { st with scrape :=
      { last_message_id := (match lastId with
          | some v => some v
          | none => st.scrape.last_message_id),
        messages_scraped := (match scraped with
          | some v => some v
          | none => st.scrape.messages_scraped) } }

/-- `TelegramScraper._save_batch(channel_id, batch)` as its trace of
persistence calls: nothing on an empty batch; otherwise `save_messages`
first, then `update_scrape_state` carrying
`min(m.message_id for m in batch)`. -/
def saveBatch (channel_id : Int) (batch : List ScrapedMessage)
    (messagesScraped : Int) : List StorageEvent :=
  match batch with
  | [] => []
  | m :: rest =>
    let oldest := (rest.map (fun x => x.message_id)).foldl min m.message_id
    [ .saveMessages channel_id (m :: rest),
      .updateState channel_id (some oldest) (some messagesScraped) ]

/-- A left fold of `min` is a lower bound of its seed and all elements. -/
theorem foldl_min_le (a : Int) (l : List Int) :
    l.foldl min a ≤ a ∧ ∀ i ∈ l, l.foldl min a ≤ i := by
  induction l generalizing a with
  | nil => simp
  | cons b t ih =>
    simp only [List.foldl_cons]
    refine ⟨le_trans (ih (min a b)).1 (min_le_left a b), ?_⟩
    intro i hi
    rcases List.mem_cons.mp hi with h | h
    · rw [h]
      exact le_trans (ih (min a b)).1 (min_le_right a b)
    · exact (ih (min a b)).2 i h

/-- A left fold of `min` is the seed or one of the elements. -/
theorem foldl_min_mem (a : Int) (l : List Int) :
    l.foldl min a = a ∨ l.foldl min a ∈ l := by
  induction l generalizing a with
  | nil => simp
  | cons b t ih =>
    simp only [List.foldl_cons]
    rcases ih (min a b) with h | h
    · rcases min_choice a b with hm | hm
      · left
        rw [h, hm]
      · right
        rw [h, hm]
        exact List.mem_cons_self b t
    · right
      exact List.mem_cons_of_mem b h

/-- C3: flushing a non-empty batch emits exactly two persistence calls, the
batch save strictly before the checkpoint advance; the checkpoint value is
the minimum message id of the batch (a member, and a lower bound of all ids
— hence the oldest, not the newest); replaying the trace on any storage
state persists the batch and leaves `last_message_id` at that minimum. -/
theorem save_batch_persists_then_checkpoints (cid : Int) (m : ScrapedMessage)
    (rest : List ScrapedMessage) (n : Int) :
    saveBatch cid (m :: rest) n =
      [StorageEvent.saveMessages cid (m :: rest),
       StorageEvent.updateState cid
         (some ((rest.map (fun x => x.message_id)).foldl min m.message_id)) (some n)] ∧
    ((rest.map (fun x => x.message_id)).foldl min m.message_id ∈
      (m :: rest).map (fun x => x.message_id)) ∧
    (∀ i ∈ (m :: rest).map (fun x => x.message_id),
      (rest.map (fun x => x.message_id)).foldl min m.message_id ≤ i) ∧
    (∀ st : StorageState,
      ((saveBatch cid (m :: rest) n).foldl applyEvent st).saved =
        st.saved ++ [(cid, m :: rest)] ∧
      ((saveBatch cid (m :: rest) n).foldl applyEvent st).scrape.last_message_id =
        some ((rest.map (fun x => x.message_id)).foldl min m.message_id)) := by
  refine ⟨rfl, ?_, ?_, fun st => ⟨rfl, rfl⟩⟩
  · rcases foldl_min_mem m.message_id (rest.map (fun x => x.message_id)) with h | h
    · rw [h]
      simp
    · simp only [List.map_cons]
      exact List.mem_cons_of_mem _ h
  · intro i hi
    simp only [List.map_cons, List.mem_cons] at hi
    rcases hi with h | h
    · subst h
      exact (foldl_min_le m.message_id (rest.map (fun x => x.message_id))).1
    · exact (foldl_min_le m.message_id (rest.map (fun x => x.message_id))).2 i h

/-- A concrete two-message batch (ids 12 and 7). -/
def demoBatch : List ScrapedMessage :=
  [⟨12, 1, "x"⟩, ⟨7, 1, "y"⟩]

/-- An empty storage state. -/
def emptyStorage : StorageState :=
  { saved := [], scrape := { last_message_id := none, messages_scraped := none } }

/-- Witness for C3: on the batch with ids `[12, 7]` the trace saves first and
then checkpoints `7`, the minimum (not the maximum `12`). -/
theorem save_batch_persists_then_checkpoints_witness :
    saveBatch 1 demoBatch 2 =
      [StorageEvent.saveMessages 1 demoBatch,
       StorageEvent.updateState 1 (some 7) (some 2)] ∧
    ((saveBatch 1 demoBatch 2).foldl applyEvent emptyStorage).scrape.last_message_id =
      some 7 ∧
    (∀ i ∈ demoBatch.map (fun x => x.message_id), (7 : Int) ≤ i) :=
  ⟨(save_batch_persists_then_checkpoints 1 ⟨12, 1, "x"⟩ [⟨7, 1, "y"⟩] 2).1,
   ((save_batch_persists_then_checkpoints 1 ⟨12, 1, "x"⟩ [⟨7, 1, "y"⟩] 2).2.2.2
      emptyStorage).2,
   (save_batch_persists_then_checkpoints 1 ⟨12, 1, "x"⟩ [⟨7, 1, "y"⟩] 2).2.2.1⟩

/-- The scraper fields consulted by `_handle_flood_wait`: the rotation
switch, whether a proxy manager is configured, and the current proxy. -/
structure FloodConfig where
  rotation_on_flood : Bool
  has_proxy_manager : Bool
  current_proxy : Option ProxyInfo

/-- Outcome of `_handle_flood_wait`: the bumped consecutive counter, the
seconds finally slept, whether the rotation block ran, and whether a
reconnect to a new proxy happened. -/
structure FloodResult where
  flood_wait_count : Nat
  total_wait : Nat
  rotation_attempted : Bool
  rotated : Bool
deriving DecidableEq

/-- `TelegramScraper._handle_flood_wait(error)`: bump the consecutive
counter, wait `error.seconds + min(count * 5, 60)`; from the 2nd consecutive
event (with rotation enabled and a manager present) try rotating, and a
successful rotation to a distinct proxy caps the wait at 30.  `newProxy`
stands for the result of the external `proxy_manager.get_proxy()` call. -/
def handleFloodWait (cfg : FloodConfig) (floodWaitCount : Nat)
    (errorSeconds : Nat) (newProxy : Option ProxyInfo) : FloodResult :=
  let count := floodWaitCount + 1
  let extra := min (count * 5) 60
  let total := errorSeconds + extra
  if cfg.rotation_on_flood && cfg.has_proxy_manager && decide (2 ≤ count) then
    match newProxy with
    | some np =>
      if some np ≠ cfg.current_proxy then
        { flood_wait_count := count, total_wait := min total 30,
          rotation_attempted := true, rotated := true }
      else
        { flood_wait_count := count, total_wait := total,
          rotation_attempted := true, rotated := false }
    | none =>
      { flood_wait_count := count, total_wait := total,
        rotation_attempted := true, rotated := false }
  else
    { flood_wait_count := count, total_wait := total,
      rotation_attempted := false, rotated := false }

/-- C6 (counterexample): on the 2nd consecutive rate-limit event with a
30-second mandated wait, when rotation is attempted AND succeeds (a distinct
proxy is obtained), the slept wait is `min(40, 30) = 30` seconds — not the
claimed 40 — so "total wait is 40 and rotation is attempted" fails on the
code for a successful rotation. -/
theorem flood_wait_scenario_cex :
    ¬ ((handleFloodWait ⟨true, true, some freshProxy⟩ 1 30 (some partialProxy)).total_wait = 40 ∧
       (handleFloodWait ⟨true, true, some freshProxy⟩ 1 30 (some partialProxy)).rotation_attempted = true) ∧
    (handleFloodWait ⟨true, true, some freshProxy⟩ 1 30 (some partialProxy)).total_wait = 30 ∧
    (handleFloodWait ⟨true, true, some freshProxy⟩ 1 30 (some partialProxy)).rotation_attempted = true := by
  decide

/-- C6 (amended): on the 2nd consecutive rate-limit event carrying a
30-second mandated wait (increment 5s, cap 60s, escalation threshold 2),
rotation is attempted, and the total wait is `30 + min(2*5, 60) = 40`
seconds unless the rotation obtains a distinct new proxy, in which case the
wait is reduced to `min(40, 30) = 30` seconds. -/
theorem flood_wait_second_event (cur newProxy : Option ProxyInfo) :
    (handleFloodWait ⟨true, true, cur⟩ 1 30 newProxy).flood_wait_count = 2 ∧
    (handleFloodWait ⟨true, true, cur⟩ 1 30 newProxy).rotation_attempted = true ∧
    ((newProxy = none ∨ newProxy = cur) →
      (handleFloodWait ⟨true, true, cur⟩ 1 30 newProxy).total_wait = 40) ∧
    (newProxy.isSome = true → newProxy ≠ cur →
      (handleFloodWait ⟨true, true, cur⟩ 1 30 newProxy).total_wait = 30) := by
  cases newProxy with
  | none =>
    exact ⟨rfl, rfl, fun _ => rfl, fun hs _ => by simp at hs⟩
  | some np =>
    by_cases hnp : some np = cur
    · refine ⟨?_, ?_, ?_, ?_⟩
      · simp [handleFloodWait, hnp]
      · simp [handleFloodWait, hnp]
      · intro _
        simp [handleFloodWait, hnp]
      · intro _ hne
        exact absurd hnp hne
    · refine ⟨?_, ?_, ?_, ?_⟩
      · simp [handleFloodWait, hnp]
      · simp [handleFloodWait, hnp]
      · intro hcase
        rcases hcase with h | h
        · exact absurd h (by simp)
        · exact absurd h hnp
      · intro _ _
        simp [handleFloodWait, hnp]

/-- Witness for the amended C6, both branches at concrete proxies: no new
proxy available ⇒ 40 seconds; a distinct new proxy obtained ⇒ 30 seconds. -/
theorem flood_wait_second_event_witness :
    (handleFloodWait ⟨true, true, none⟩ 1 30 none).total_wait = 40 ∧
    (handleFloodWait ⟨true, true, some freshProxy⟩ 1 30 (some partialProxy)).total_wait = 30 :=
  ⟨(flood_wait_second_event none none).2.2.1 (Or.inl rfl),
   (flood_wait_second_event (some freshProxy) (some partialProxy)).2.2.2 rfl (by decide)⟩

/-- The tenths count rendered by Python percent/fixed formatting with one
decimal digit: round-half-up of `q * 10` (exact decimal values only here, so
binary-float half-even ties do not arise). -/
def tenths (q : ℚ) : Int := ⌊q * 10 + 1/2⌋

/-- Fixed-point rendering with one decimal digit of a nonnegative tenths
count. -/
def fmtTenths (t : Int) : String :=
  toString (t / 10) ++ "." ++ toString (t % 10)

/-- Python percent formatting with one decimal digit: scale by 100, one
decimal digit, percent sign. -/
def fmtPct (q : ℚ) : String := fmtTenths (tenths (q * 100)) ++ "%"

/-- Date rendering of a logical tick (models strftime on a datetime). -/
def fmtDate (n : Nat) : String := toString n

/-- The collection-period sentence, present only when both timestamps are
set. -/
def dateClause (m : BiasMetrics) : String :=
  match m.collection_start_ts, m.collection_end_ts with
  | some a, some b =>
    "occurred between " ++ fmtDate a ++ " and " ++ fmtDate b ++ ". "
  | _, _ => ""

/-- The gap-ratio sentence — emitted unconditionally. -/
def gapClause (m : BiasMetrics) : String :=
  "Approximately " ++ fmtPct m.gap_ratio ++ " of message IDs within the observed range were unavailable at collection time, consistent with deletion or access restrictions. "

/-- The deletion-rate sentence, emitted only when `deletion_rate > 0`. -/
def deletionClause (m : BiasMetrics) : String :=
  if 0 < m.deletion_rate then
    "The confirmed deletion rate was " ++ fmtPct m.deletion_rate ++ ". "
  else ""

/-- The edit-rate sentence, emitted only when `edit_rate > 0`. -/
def editClause (m : BiasMetrics) : String :=
  if 0 < m.edit_rate then
    "Approximately " ++ fmtPct m.edit_rate ++ " of collected messages showed evidence of post-publication editing. "
  else ""

/-- The sampling-latency sentence, emitted only when the value is set and
nonzero (Python truthiness of a float). -/
def latencyClause (m : BiasMetrics) : String :=
  match m.avg_sampling_latency_seconds with
  | some q =>
    if q ≠ 0 then
      "Average sampling latency was " ++ fmtTenths (tenths (q / 3600)) ++ " hours, which may underrepresent short-lived content."
    else ""
  | none => ""

/-- `BiasMetrics.get_methodology_statement`: header, optional period
sentence, unconditional gap sentence, conditional deletion/edit/latency
sentences. -/
def methodologyStatement (m : BiasMetrics) : String :=
  "Data collection for channel \x27" ++ m.channel_name ++ "\x27 " ++
    dateClause m ++ gapClause m ++ deletionClause m ++ editClause m ++
    latencyClause m

/-- Does `pat` occur at the head of `s`? -/
def matchAt (pat s : List Char) : Bool :=
  match pat, s with
  | [], _ => true
  | _ :: _, [] => false
  | p :: ps, c :: cs => p == c && matchAt ps cs

/-- Does `pat` occur anywhere in `s`? -/
def hasSub (s pat : List Char) : Bool :=
  match s with
  | [] => pat.isEmpty
  | _ :: cs => matchAt pat s || hasSub cs pat

/-- Substring test on strings. -/
def containsStr (s pat : String) : Bool := hasSub s.data pat.data

/-- A zero deleted count forces a zero deletion rate. -/
theorem deletion_rate_of_zero (m : BiasMetrics) (h : m.confirmed_deleted = 0) :
    m.deletion_rate = 0 := by
  unfold BiasMetrics.deletion_rate
  rw [h]
  split <;> simp

/-- A zero edited count forces a zero edit rate. -/
theorem edit_rate_of_zero (m : BiasMetrics) (h : m.edited_messages = 0) :
    m.edit_rate = 0 := by
  unfold BiasMetrics.edit_rate
  rw [h]
  split <;> simp

/-- The deletion sentence is omitted entirely at rate zero. -/
theorem deletionClause_empty (m : BiasMetrics) (h : m.deletion_rate = 0) :
    deletionClause m = "" := by
  unfold deletionClause
  rw [h]
  simp

/-- The edit sentence is omitted entirely at rate zero. -/
theorem editClause_empty (m : BiasMetrics) (h : m.edit_rate = 0) :
    editClause m = "" := by
  unfold editClause
  rw [h]
  simp

/-- Rendering the zero ratio: exactly the `0.0%` digits. -/
theorem tenths_zero : tenths ((0 : ℚ) * 100) = 0 := by
  unfold tenths
  have h : ((0 : ℚ) * 100) * 10 + 1/2 = 1/2 := by norm_num
  rw [h, Int.floor_eq_zero_iff, Set.mem_Ico]
  constructor <;> norm_num

/-- The percent rendering of the zero ratio. -/
theorem fmtPct_zero : fmtPct 0 = "0.0%" := by
  unfold fmtPct
  rw [tenths_zero]
  decide

/-- C8 (counterexample): on the all-zero metrics (`gap_count = 0`) the
methodology statement DOES contain a `0.0%` sentence — the gap-ratio
sentence is emitted unconditionally by the source — refuting the claim that
a zero underlying count never yields a `0.0%` rate sentence for gaps. -/
theorem methodology_zero_pct_cex :
    zeroMetrics.gap_count = 0 ∧
    containsStr (methodologyStatement zeroMetrics) "0.0%" = true := by
  refine ⟨rfl, ?_⟩
  have hgap : gapClause zeroMetrics = "Approximately 0.0% of message IDs within the observed range were unavailable at collection time, consistent with deletion or access restrictions. " := by
    unfold gapClause
    rw [show BiasMetrics.gap_ratio zeroMetrics = 0 from rfl, fmtPct_zero]
    decide
  have hdel : deletionClause zeroMetrics = "" :=
    deletionClause_empty _ (deletion_rate_of_zero _ rfl)
  have hedit : editClause zeroMetrics = "" :=
    editClause_empty _ (edit_rate_of_zero _ rfl)
  have hstmt : methodologyStatement zeroMetrics = "Data collection for channel \x27empty\x27 Approximately 0.0% of message IDs within the observed range were unavailable at collection time, consistent with deletion or access restrictions. " := by
    unfold methodologyStatement
    rw [hgap, hdel, hedit]
    rfl
  rw [hstmt]
  decide

/-- C8 (amended): the statement is always the full template — header,
optional period sentence, gap sentence, conditional clauses — so it is a
complete statement in every case; the deletion-rate and edit-rate sentences
are omitted entirely when their underlying count is zero; the gap-ratio
sentence, however, is emitted unconditionally (with its percentage) and is
never empty. -/
theorem methodology_statement_clauses (m : BiasMetrics) :
    (methodologyStatement m =
      "Data collection for channel \x27" ++ m.channel_name ++ "\x27 " ++
        dateClause m ++ gapClause m ++ deletionClause m ++ editClause m ++
        latencyClause m) ∧
    (m.confirmed_deleted = 0 → deletionClause m = "") ∧
    (m.edited_messages = 0 → editClause m = "") ∧
    (gapClause m =
      "Approximately " ++ fmtPct m.gap_ratio ++ " of message IDs within the observed range were unavailable at collection time, consistent with deletion or access restrictions. ") ∧
    gapClause m ≠ "" := by
  refine ⟨rfl, fun h => deletionClause_empty m (deletion_rate_of_zero m h),
    fun h => editClause_empty m (edit_rate_of_zero m h), rfl, ?_⟩
  intro hemp
  have hlen := congrArg String.length hemp
  unfold gapClause at hlen
  rw [String.length_append, String.length_append] at hlen
  rw [show ("Approximately " : String).length = 14 from rfl] at hlen
  rw [show ("" : String).length = 0 from rfl] at hlen
  omega

/-- Witness for the amended C8: on the all-zero metrics both conditional
clauses are omitted. -/
theorem methodology_statement_clauses_witness :
    deletionClause zeroMetrics = "" ∧ editClause zeroMetrics = "" :=
  ⟨(methodology_statement_clauses zeroMetrics).2.1 rfl,
   (methodology_statement_clauses zeroMetrics).2.2.1 rfl⟩

end TScrape
